import Mathlib

/-!
Shallow embedding of `src/network-listener.js`, a Chrome-extension background
script that observes debugger network events in a tab, pairs each
`Network.requestWillBeSent` with its `Network.responseReceived` by request
identifier, fetches bodies with follow-up debugger commands, and POSTs the
completed record to a collector endpoint.

The embedding models:
  * JavaScript values (`JSValue`) with JS truthiness and `JSON.stringify`;
  * the pending-request store backed by `chrome.storage.local`, as an
    association list keyed by the request identifier string;
  * the handlers `onNetworkEvent`, `onRequestWillBeSent`,
    `onResponseReceived`, `createEvent`, `tryToStringify`,
    `importantResourceType` and `collectNetworkEvent`;
  * the external world (`Env`): the results of the
    `Network.getRequestPostData` and `Network.getResponseBody` debugger
    commands and the HTTP status the collector endpoint answers with.

A JavaScript runtime error (reading a property of `undefined`) is modelled
by `Except.error`.
-/

/-- JavaScript values, as far as the script manipulates them. Numbers are
modelled as integers: the script only passes numeric fields through and
compares them with `>=` / `<`. -/
inductive JSValue where
  | undef
  | null
  | bool (b : Bool)
  | num (n : Int)
  | str (s : String)
  | arr (elems : List JSValue)
  | obj (fields : List (String × JSValue))
  deriving Repr

/-- JS truthiness: `undefined`, `null`, `false`, `0` and `""` are falsy;
every object and array is truthy. -/
def JSValue.falsy : JSValue → Bool
  | .undef => true
  | .null => true
  | .bool b => !b
  | .num n => n == 0
  | .str s => s == ""
  | .arr _ => false
  | .obj _ => false

/-- An opening brace character as a string. -/
def lbrace : String := "\x7b"

/-- A closing brace character as a string. -/
def rbrace : String := "\x7d"

/-- Escape one character for a JSON string literal. -/
def jsonEscapeChar (c : Char) : String :=
  if c = '\\' then "\\\\"
  else if c = '"' then "\\\""
  else if c = '\n' then "\\n"
  else if c = '\t' then "\\t"
  else if c = '\r' then "\\r"
  else String.singleton c

/-- A JSON string literal: quotes around the escaped characters. -/
def jsonQuote (s : String) : String :=
  "\"" ++ String.join (s.toList.map jsonEscapeChar) ++ "\""

mutual

/-- `JSON.stringify`. Returns `none` exactly when JS returns the value
`undefined` instead of a string (stringifying `undefined` itself). Inside
arrays an unserializable element becomes `null`; inside objects the member
is skipped, as in JS. -/
def jsonStringify : JSValue → Option String
  | .undef => none
  | .null => some "null"
  | .bool b => some (cond b "true" "false")
  | .num n => some (toString n)
  | .str s => some (jsonQuote s)
  | .arr elems => some ("[" ++ String.intercalate "," (jsonArrayElems elems) ++ "]")
  | .obj fields => some (lbrace ++ String.intercalate "," (jsonObjMembers fields) ++ rbrace)

/-- Serialized elements of a JSON array. -/
def jsonArrayElems : List JSValue → List String
  | [] => []
  | v :: rest => ((jsonStringify v).getD "null") :: jsonArrayElems rest

/-- Serialized members of a JSON object; `undefined`-valued members are skipped. -/
def jsonObjMembers : List (String × JSValue) → List String
  | [] => []
  | (k, v) :: rest =>
    match jsonStringify v with
    | none => jsonObjMembers rest
    | some s => (jsonQuote k ++ ":" ++ s) :: jsonObjMembers rest

end

/-- `tryToStringify` from the source: a falsy value gives the empty string,
a (truthy) string passes through unchanged, anything else is
`JSON.stringify`-ed. The `getD ""` branch is unreachable: `jsonStringify`
is `none` only on `undef`, which is falsy. -/
def tryToStringify (val : JSValue) : String :=
  if val.falsy then ""
  else
    match val with
    | .str s => s
    | v => (jsonStringify v).getD ""

/-- JS `ToNumber` coercion, partially: `none` stands for `NaN`. Strings
other than the empty string are parsed as decimal integers when possible
(the script only ever coerces the empty string). -/
def jsToNumber : JSValue → Option Int
  | .undef => none
  | .null => some 0
  | .bool b => some (cond b 1 0)
  | .num n => some n
  | .str s => if s = "" then some 0 else s.toInt?
  | .arr _ => none
  | .obj _ => none

/-- JS `a >= b` after numeric coercion; any comparison with `NaN` is false. -/
def jsGe (a b : JSValue) : Bool :=
  match jsToNumber a, jsToNumber b with
  | some x, some y => decide (x ≥ y)
  | _, _ => false

/-- JS `a < b` after numeric coercion; any comparison with `NaN` is false. -/
def jsLt (a b : JSValue) : Bool :=
  match jsToNumber a, jsToNumber b with
  | some x, some y => decide (x < y)
  | _, _ => false

/-- The resource-type whitelist `resources` from the source. -/
def resources : List String := ["XHR", "Fetch"]

/-- JS `Array.prototype.indexOf` on a list of strings: the index of the
first occurrence, or `-1` when absent. -/
def jsIndexOf (xs : List String) (s : String) : Int :=
  match xs with
  | [] => -1
  | x :: rest =>
    if x = s then 0
    else
      let r := jsIndexOf rest s
      if r = -1 then -1 else r + 1

/-- `importantResourceType` from the source:
`type && resources.indexOf(type) > -1`, read as a boolean. `params.type`
is modelled as `Option String`, `none` standing for an absent (undefined)
field, which is falsy. -/
def importantResourceType (type : Option String) : Bool :=
  match type with
  | none => false
  | some s => !(s == "") && decide (jsIndexOf resources s > -1)

/-- The `request` object inside `Network.requestWillBeSent` params.
`postData` is `JSValue.undef` when the field is absent. -/
structure JSRequest where
  url : String
  method : String
  hasPostData : Bool
  postData : JSValue
  deriving Repr

/-- Params of a `Network.requestWillBeSent` event: the fields the script
reads. The request identifier is the opaque string issued by the protocol;
timestamps pass through the script untouched. -/
structure RequestParams where
  requestId : String
  timestamp : Int
  type : Option String
  request : JSRequest
  deriving Repr

/-- The `response` object inside `Network.responseReceived` params. -/
structure JSResponse where
  status : Int
  deriving Repr

/-- Params of a `Network.responseReceived` event: the fields the script reads. -/
structure ResponseParams where
  requestId : String
  type : Option String
  response : JSResponse
  deriving Repr

/-- Result of the `Network.getResponseBody` debugger command. -/
structure ResponseBody where
  body : JSValue
  base64Encoded : Bool
  deriving Repr

/-- The record built by `createEvent` and POSTed to the collector. -/
structure NetworkEventRecord where
  requestId : String
  timestamp : Int
  type : Option String
  url : String
  method : String
  status : Int
  requestBody : String
  responseBody : String
  responseBodyBase64Encoded : Bool
  deriving Repr

/-- The pending-request store: `chrome.storage.local` restricted to the
per-identifier entries the script writes, as an association list from the
request identifier (the storage key) to the stored request params. -/
abbrev Store := List (String × RequestParams)

/-- `chrome.storage.local.remove (id)`: delete the entry for a key;
a no-op when the key is absent. -/
def Store.remove (s : Store) (k : String) : Store :=
  match s with
  | [] => []
  | e :: rest => if e.1 = k then Store.remove rest k else e :: Store.remove rest k

/-- `chrome.storage.local.set (\x7b [id]: params \x7d)`: insert or overwrite
the entry for a key. -/
def Store.set (s : Store) (k : String) (v : RequestParams) : Store :=
  (k, v) :: Store.remove s k

/-- `chrome.storage.local.get (id, cb)` followed by `storage[id]`:
the stored value, or `none` when the key is absent. -/
def Store.get (s : Store) (k : String) : Option RequestParams :=
  match s with
  | [] => none
  | e :: rest => if e.1 = k then some e.2 else Store.get rest k

/-- The external world as the handlers observe it:
  * `getRequestPostData id`: what the `Network.getRequestPostData` command
    callback receives for that identifier (`JSValue.undef` when the command
    fails, as the callback argument is then undefined);
  * `getResponseBody id`: what the `Network.getResponseBody` command
    callback receives (`none` when the command fails);
  * `transportStatus`: the HTTP status the collector endpoint answers the
    dispatch POST with. -/
structure Env where
  getRequestPostData : String → JSValue
  getResponseBody : String → Option ResponseBody
  transportStatus : Int

/-- The value of the free identifier `status` inside the
`readystatechange` listener of `collectNetworkEvent`. The source reads
the bare name `status`, not `xhr.status`, so it resolves to the ambient
global `status` (the window status bar string), whose default value is
the empty string. -/
def freeStatusGlobal : JSValue := JSValue.str ""

/-- `collectNetworkEvent` from the source, reduced to the boolean it passes
to its completion callback once the XHR reaches `DONE`:
`status >= 200 && status < 400`, where `status` is the free identifier
resolving to `freeStatusGlobal`. The record being sent and the actual HTTP
status of the XHR are in scope in the source but unused by this
expression. -/
def collectNetworkEvent (_event : NetworkEventRecord) (_xhrStatus : Int) : Bool :=
  jsGe freeStatusGlobal (JSValue.num 200) && jsLt freeStatusGlobal (JSValue.num 400)

/-- Whether the outbound transport accepted the dispatch POST.
Modelled from the spec: the Outbound Transport reports success for a
2xx/3xx status and failure for other statuses or a network error; the
source itself never computes this from the real XHR status. -/
def transportAccepted (status : Int) : Bool :=
  decide (200 ≤ status) && decide (status < 400)

/-- The error raised in JS when `createEvent` dereferences an absent
`requestParams` (orphan response: the store had no entry). -/
def orphanTypeError : String :=
  "TypeError: Cannot read properties of undefined (reading requestId)"

/-- `createEvent` from the source. When `requestParams` is absent (the
store lookup found nothing), the JS code throws a `TypeError` on
`requestParams.requestId`; this is the `Except.error` branch. -/
def createEvent (responseBody : Option ResponseBody) (requestParams : Option RequestParams)
    (responseParams : ResponseParams) : Except String NetworkEventRecord :=
  match requestParams with
  | none => Except.error orphanTypeError
  | some rp =>
    Except.ok
      { requestId := rp.requestId
        timestamp := rp.timestamp
        type := rp.type
        url := rp.request.url
        method := rp.request.method
        status := responseParams.response.status
        requestBody := tryToStringify rp.request.postData
        responseBody :=
          match responseBody with
          | some rb => tryToStringify rb.body
          | none => ""
        responseBodyBase64Encoded :=
          match responseBody with
          | some rb => rb.base64Encoded
          | none => false }

/-- The record `createEvent` builds when the stored request params are
present: identifying fields copied from the stored request, status from
the response event, bodies normalized. -/
def builtRecord (responseBody : Option ResponseBody) (rp : RequestParams)
    (responseParams : ResponseParams) : NetworkEventRecord :=
  { requestId := rp.requestId
    timestamp := rp.timestamp
    type := rp.type
    url := rp.request.url
    method := rp.request.method
    status := responseParams.response.status
    requestBody := tryToStringify rp.request.postData
    responseBody :=
      match responseBody with
      | some rb => tryToStringify rb.body
      | none => ""
    responseBodyBase64Encoded :=
      match responseBody with
      | some rb => rb.base64Encoded
      | none => false }

/-- `onRequestWillBeSent` from the source: when the request is marked as
having post data that was omitted from the capture
(`hasPostData && !postData`), the body is fetched with
`Network.getRequestPostData` and written into the params before storing;
otherwise the params are stored unchanged. Either way the entry is stored
under the request identifier. -/
def onRequestWillBeSent (env : Env) (store : Store) (params : RequestParams) : Store :=
  if params.request.hasPostData && params.request.postData.falsy then
    let data := env.getRequestPostData params.requestId
    Store.set store params.requestId
      { params with request := { params.request with postData := data } }
  else
    Store.set store params.requestId params

/-- `onResponseReceived` from the source: look the identifier up in the
store, fetch the response body, build the record with `createEvent`, hand
it to `collectNetworkEvent`, and — inside the dispatch completion
callback, with no test of the success flag — remove the store entry.
Returns the new store, the record handed to the dispatcher, and the
boolean passed to the completion callback; the `Except.error` branch is
the `TypeError` thrown by `createEvent` on an orphan response. -/
def onResponseReceived (env : Env) (store : Store) (params : ResponseParams) :
    Except String (Store × NetworkEventRecord × Bool) :=
  let requestParams := Store.get store params.requestId
  let response := env.getResponseBody params.requestId
  match createEvent response requestParams params with
  | Except.error e => Except.error e
  | Except.ok event =>
    let isSuccess := collectNetworkEvent event env.transportStatus
    Except.ok (Store.remove store params.requestId, event, isSuccess)

/-- A debugger protocol message as dispatched by `onNetworkEvent`. -/
inductive NetworkMessage where
  | requestWillBeSent (params : RequestParams)
  | responseReceived (params : ResponseParams)
  deriving Repr

/-- `params.type` of a message, read before the message name is examined. -/
def NetworkMessage.paramsType : NetworkMessage → Option String
  | .requestWillBeSent p => p.type
  | .responseReceived p => p.type

/-- The listener returned by `onNetworkEvent(tabId)` from the source:
ignore events from other tabs, ignore resource types outside the
whitelist, then dispatch on the message name. Returns the store after the
event and the record/flag pair the dispatcher saw, when one was produced. -/
def onNetworkEvent (env : Env) (tabId : Int) (debuggeeTabId : Int) (msg : NetworkMessage)
    (store : Store) : Except String (Store × Option (NetworkEventRecord × Bool)) :=
  if tabId ≠ debuggeeTabId then Except.ok (store, none)
  else if !importantResourceType msg.paramsType then Except.ok (store, none)
  else
    match msg with
    | .requestWillBeSent p => Except.ok (onRequestWillBeSent env store p, none)
    | .responseReceived p =>
      match onResponseReceived env store p with
      | Except.error e => Except.error e
      | Except.ok (s1, event, flag) => Except.ok (s1, some (event, flag))

/-! ### Concrete fixtures, used by witnesses and counterexamples -/

/-- A GET request without post data. -/
def demoRequest : JSRequest :=
  { url := "https://x/api", method := "GET", hasPostData := false, postData := JSValue.undef }

/-- Params of a request-sent event for identifier `"7"`, resource type `Fetch`. -/
def demoRequestParams : RequestParams :=
  { requestId := "7", timestamp := 1, type := some "Fetch", request := demoRequest }

/-- A POST request whose body was omitted from the capture:
`hasPostData` is set but `postData` is absent. -/
def postRequestParams : RequestParams :=
  { requestId := "12"
    timestamp := 2
    type := some "XHR"
    request :=
      { url := "https://x/api/save", method := "POST", hasPostData := true,
        postData := JSValue.undef } }

/-- Params of a response-received event for identifier `"7"`, status 200. -/
def demoResponseParams : ResponseParams :=
  { requestId := "7", type := some "Fetch", response := { status := 200 } }

/-- Params of a response-received event for identifier `"12"`, status 201. -/
def postResponseParams : ResponseParams :=
  { requestId := "12", type := some "XHR", response := { status := 201 } }

/-- A response-received event whose resource type `Image` is outside the whitelist. -/
def imageResponseParams : ResponseParams :=
  { requestId := "7", type := some "Image", response := { status := 200 } }

/-- An environment where every external call succeeds and the collector
answers the dispatch POST with status 200. -/
def demoEnv : Env :=
  { getRequestPostData := fun _ => JSValue.str "grant=code"
    getResponseBody := fun _ => some { body := JSValue.obj [("a", JSValue.num 1)], base64Encoded := false }
    transportStatus := 200 }

/-- An environment where the collector rejects the dispatch POST with
status 500; body fetches still succeed. -/
def failEnv : Env :=
  { getRequestPostData := fun _ => JSValue.str "grant=code"
    getResponseBody := fun _ => some { body := JSValue.obj [("a", JSValue.num 1)], base64Encoded := false }
    transportStatus := 500 }

/-- An environment where the `Network.getResponseBody` command fails
(its callback receives undefined). -/
def noBodyEnv : Env :=
  { getRequestPostData := fun _ => JSValue.str "grant=code"
    getResponseBody := fun _ => none
    transportStatus := 200 }

/-- A store holding exactly the pending request `"7"`. -/
def demoStore : Store := [("7", demoRequestParams)]

/-- Whether a value is a JS string (the `typeof val === "string"` test of
the source). -/
def JSValue.isStr : JSValue → Bool
  | .str _ => true
  | _ => false

/-- The Record Serializer body normalization as claim C6 states it, for
comparison with `tryToStringify`: an absent value maps to the empty
string, a string value is returned unchanged, and any other (structured,
non-string) value maps to its JSON serialization. -/
def claimedNormalize : JSValue → String
  | JSValue.undef => ""
  | JSValue.null => ""
  | JSValue.str s => s
  | v => (jsonStringify v).getD ""

/-- The record produced for the `"7"` request/response pair in `demoEnv`:
note the structured response body serialized as JSON text. -/
def demoRecord : NetworkEventRecord :=
  { requestId := "7", timestamp := 1, type := some "Fetch", url := "https://x/api",
    method := "GET", status := 200, requestBody := "",
    responseBody := lbrace ++ "\"a\":1" ++ rbrace,
    responseBodyBase64Encoded := false }

/-! ### Helper lemmas -/

/-- Removing a key, then looking it up, finds nothing. -/
theorem Store.get_remove (s : Store) (k : String) :
    Store.get (Store.remove s k) k = none := by
  induction s with
  | nil => rfl
  | cons e rest ih =>
    by_cases h : e.1 = k
    · simpa [Store.remove, h] using ih
    · simpa [Store.remove, Store.get, h] using ih

/-- Looking up the key just set finds the value just set. -/
theorem Store.get_set (s : Store) (k : String) (v : RequestParams) :
    Store.get (Store.set s k v) k = some v := by
  simp [Store.set, Store.get]

/-- Removing a key twice is the same as removing it once. -/
theorem Store.remove_remove (s : Store) (k : String) :
    Store.remove (Store.remove s k) k = Store.remove s k := by
  induction s with
  | nil => rfl
  | cons e rest ih =>
    by_cases h : e.1 = k
    · simpa [Store.remove, h] using ih
    · simp [Store.remove, h, ih]

/-- Removing an absent key leaves the store unchanged. -/
theorem Store.remove_of_get_none (s : Store) (k : String) (h : Store.get s k = none) :
    Store.remove s k = s := by
  induction s with
  | nil => rfl
  | cons e rest ih =>
    by_cases he : e.1 = k
    · simp [Store.get, he] at h
    · simp [Store.get, he] at h
      simp [Store.remove, he, ih h]

/-- The whitelist test, characterized: exactly the strings `XHR` and `Fetch`
pass, and an absent type does not. -/
theorem importantResourceType_iff (t : Option String) :
    importantResourceType t = true ↔ t = some "XHR" ∨ t = some "Fetch" := by
  cases t with
  | none => simp [importantResourceType]
  | some s =>
    by_cases h1 : s = "XHR"
    · subst h1; decide
    · by_cases h2 : s = "Fetch"
      · subst h2; decide
      · have h1s : ¬ ("XHR" = s) := fun h => h1 h.symm
        have h2s : ¬ ("Fetch" = s) := fun h => h2 h.symm
        simp [importantResourceType, resources, jsIndexOf, h1s, h2s, h1, h2]

/-- A string value passes through `tryToStringify` unchanged (the empty
string is falsy, but maps to itself anyway). -/
theorem tryToStringify_str (s : String) : tryToStringify (JSValue.str s) = s := by
  by_cases h : s = ""
  · subst h; rfl
  · simp [tryToStringify, JSValue.falsy, h]

/-- `onRequestWillBeSent` always stores an entry under the event's request
identifier whose identifying fields are those of the event; only
`postData` may differ (filled in from the follow-up fetch). -/
theorem onRequestWillBeSent_set (env : Env) (store : Store) (params : RequestParams) :
    ∃ p, onRequestWillBeSent env store params = Store.set store params.requestId p ∧
      p.requestId = params.requestId ∧ p.timestamp = params.timestamp ∧
      p.type = params.type ∧ p.request.url = params.request.url ∧
      p.request.method = params.request.method := by
  by_cases h : (params.request.hasPostData && params.request.postData.falsy) = true
  · exact ⟨{ params with request := { params.request with
        postData := env.getRequestPostData params.requestId } },
      by simp [onRequestWillBeSent, h], rfl, rfl, rfl, rfl, rfl⟩
  · exact ⟨params, by simp [onRequestWillBeSent, h], rfl, rfl, rfl, rfl, rfl⟩

/-- The boolean `collectNetworkEvent` passes to its completion callback is
`false` whatever record is sent and whatever the XHR status is: the
comparison reads the global `status` string, not `xhr.status`. -/
theorem collectNetworkEvent_eq_false (event : NetworkEventRecord) (xhrStatus : Int) :
    collectNetworkEvent event xhrStatus = false := rfl

/-! ### Claim theorems -/

/-- Claim C7: the Resource Filter predicate returns true for a
resource-type string if and only if that string is one of the two
whitelisted programmatic-fetch categories, `XHR` and `Fetch`; for every
other string, and for an absent type, it returns false. The function is a
pure predicate (a Lean function with no effects). -/
theorem importantResourceType_whitelist (t : Option String) :
    importantResourceType t = true ↔ t = some "XHR" ∨ t = some "Fetch" :=
  importantResourceType_iff t

/-- Witness for claim C7 at concrete inputs: `XHR` passes the filter,
`Image` and an absent type do not. -/
theorem importantResourceType_whitelist_witness :
    importantResourceType (some "XHR") = true ∧
    importantResourceType (some "Image") = false ∧
    importantResourceType none = false :=
  ⟨(importantResourceType_whitelist (some "XHR")).mpr (Or.inl rfl), by decide, by decide⟩

/-- Claim C8: the store's `remove` is idempotent — removing an identifier
twice leaves the store in the same state as removing it once — and
removing an absent identifier leaves the store unchanged. -/
theorem store_remove_idempotent (s : Store) (k : String) :
    Store.remove (Store.remove s k) k = Store.remove s k ∧
    (Store.get s k = none → Store.remove s k = s) :=
  ⟨Store.remove_remove s k, Store.remove_of_get_none s k⟩

/-- Witness for claim C8 on a concrete store: `"9"` is absent from
`demoStore`, double removal agrees with single removal, and removing the
absent key is a no-op. -/
theorem store_remove_idempotent_witness :
    Store.get demoStore "9" = none ∧
    Store.remove (Store.remove demoStore "9") "9" = Store.remove demoStore "9" ∧
    Store.remove demoStore "9" = demoStore :=
  ⟨rfl, (store_remove_idempotent demoStore "9").1,
    (store_remove_idempotent demoStore "9").2 rfl⟩

/-- Claim C9: the boolean the Dispatcher hands to its completion callback
is the same for every HTTP status the outbound transport returns — the
expression `status >= 200 && status < 400` reads the free identifier
`status` (the ambient global status string, empty), not the
XMLHttpRequest's status field — and in particular it never evaluates to
true. -/
theorem collectNetworkEvent_flag_never_true (event : NetworkEventRecord) (xhrStatus : Int) :
    collectNetworkEvent event xhrStatus = false :=
  collectNetworkEvent_eq_false event xhrStatus

/-- Claim C6 counterexample: the number `0` is neither an absent value nor
a string, so by the claim it should map to its JSON serialization `"0"`;
`tryToStringify` instead tests JS falsiness and maps it to the empty
string. -/
theorem tryToStringify_zero_counterexample :
    tryToStringify (JSValue.num 0) = "" ∧
    claimedNormalize (JSValue.num 0) = "0" ∧
    tryToStringify (JSValue.num 0) ≠ claimedNormalize (JSValue.num 0) := by
  refine ⟨rfl, rfl, ?_⟩
  intro h
  have h2 : ("" : String) = "0" := h
  exact absurd h2 (by decide)

/-- Claim C6 (amended): `tryToStringify` is pure and total; a falsy value
(absent, but also `0`, `false` and the empty string) maps to the empty
string, a string value is returned unchanged, and a truthy non-string
value maps to its deterministic textual JSON serialization. -/
theorem tryToStringify_normalization (v : JSValue) :
    (v.falsy = true → tryToStringify v = "") ∧
    (∀ s, v = JSValue.str s → tryToStringify v = s) ∧
    (v.falsy = false → v.isStr = false →
      ∃ j, jsonStringify v = some j ∧ tryToStringify v = j) := by
  refine ⟨fun h => by simp [tryToStringify, h],
    fun s hs => by subst hs; exact tryToStringify_str s,
    fun hf hs => ?_⟩
  cases v with
  | undef => simp [JSValue.falsy] at hf
  | null => exact ⟨"null", rfl, by simp [tryToStringify, JSValue.falsy] at hf ⊢⟩
  | bool b => exact ⟨cond b "true" "false", rfl, by simp [tryToStringify, hf, jsonStringify]⟩
  | num n => exact ⟨toString n, rfl, by simp [tryToStringify, hf, jsonStringify]⟩
  | str s => simp [JSValue.isStr] at hs
  | arr elems =>
    exact ⟨"[" ++ String.intercalate "," (jsonArrayElems elems) ++ "]", rfl,
      by simp [tryToStringify, JSValue.falsy, jsonStringify]⟩
  | obj fields =>
    exact ⟨lbrace ++ String.intercalate "," (jsonObjMembers fields) ++ rbrace, rfl,
      by simp [tryToStringify, JSValue.falsy, jsonStringify]⟩

/-- Witness for the amended claim C6 at concrete inputs: `false` is falsy
and maps to the empty string; the object with one member maps to its JSON
text. -/
theorem tryToStringify_normalization_witness :
    tryToStringify (JSValue.bool false) = "" ∧
    (∃ j, jsonStringify (JSValue.obj [("a", JSValue.num 1)]) = some j ∧
      tryToStringify (JSValue.obj [("a", JSValue.num 1)]) = j) :=
  ⟨(tryToStringify_normalization (JSValue.bool false)).1 rfl,
    (tryToStringify_normalization (JSValue.obj [("a", JSValue.num 1)])).2.2 rfl rfl⟩

/-- Claim C2 counterexample: a response-received event for identifier `"7"`
against an empty store. The claim says the Correlator drops it without
raising; instead `createEvent` dereferences the absent request params and
the handler propagates the `TypeError`. -/
theorem orphanResponse_counterexample :
    onResponseReceived demoEnv [] demoResponseParams = Except.error orphanTypeError := rfl

/-- Claim C2 (amended): a response-received event whose identifier has no
stored pending request produces no `NetworkEventRecord`, but the handler
does raise — `createEvent` throws a `TypeError` reading `requestId` of the
absent request params, so the event is not a silently dropped orphan. -/
theorem orphanResponse_raises (env : Env) (store : Store) (params : ResponseParams)
    (h : Store.get store params.requestId = none) :
    onResponseReceived env store params = Except.error orphanTypeError := by
  simp [onResponseReceived, h, createEvent]

/-- Witness for the amended claim C2: empty store, identifier `"7"`. -/
theorem orphanResponse_raises_witness :
    Store.get ([] : Store) "7" = none ∧
    onResponseReceived demoEnv [] demoResponseParams = Except.error orphanTypeError :=
  ⟨rfl, orphanResponse_raises demoEnv [] demoResponseParams rfl⟩

/-- Claim C5: when the response-body fetch fails (the
`Network.getResponseBody` callback receives no value), a record is still
produced and dispatched, with `responseBody` the empty string and the
binary flag false. -/
theorem responseBodyFetchFailure_record (env : Env) (store : Store) (respP : ResponseParams)
    (rp : RequestParams) (hstored : Store.get store respP.requestId = some rp)
    (hfail : env.getResponseBody respP.requestId = none) :
    ∃ rec flag, onResponseReceived env store respP =
        Except.ok (Store.remove store respP.requestId, rec, flag) ∧
      rec.responseBody = "" ∧ rec.responseBodyBase64Encoded = false := by
  refine ⟨{ requestId := rp.requestId
            timestamp := rp.timestamp
            type := rp.type
            url := rp.request.url
            method := rp.request.method
            status := respP.response.status
            requestBody := tryToStringify rp.request.postData
            responseBody := ""
            responseBodyBase64Encoded := false }, false, ?_, rfl, rfl⟩
  simp [onResponseReceived, hstored, hfail, createEvent, collectNetworkEvent_eq_false]

/-- Witness for claim C5: the stored request `"7"` paired with its response
in an environment where the body fetch fails. -/
theorem responseBodyFetchFailure_witness :
    Store.get demoStore "7" = some demoRequestParams ∧
    noBodyEnv.getResponseBody "7" = none ∧
    ∃ rec flag, onResponseReceived noBodyEnv demoStore demoResponseParams =
        Except.ok (Store.remove demoStore "7", rec, flag) ∧
      rec.responseBody = "" ∧ rec.responseBodyBase64Encoded = false :=
  ⟨rfl, rfl,
    responseBodyFetchFailure_record noBodyEnv demoStore demoResponseParams demoRequestParams
      rfl rfl⟩

/-- Claim C10: the resource-type filter also gates response-received
events: when `params.type` is absent or not whitelisted, the listener
returns before correlation — the store is unchanged (no entry removed) and
no record is produced — even when a matching pending request is stored. -/
theorem responseFiltered_before_correlation (env : Env) (tabId : Int) (store : Store)
    (respP : ResponseParams)
    (h : ∀ s, respP.type = some s → s ≠ "XHR" ∧ s ≠ "Fetch") :
    onNetworkEvent env tabId tabId (NetworkMessage.responseReceived respP) store =
      Except.ok (store, none) := by
  have hfilter : importantResourceType respP.type = false := by
    cases hbool : importantResourceType respP.type with
    | false => rfl
    | true =>
      rcases (importantResourceType_iff respP.type).mp hbool with h1 | h1
      · exact absurd rfl (h "XHR" h1).1
      · exact absurd rfl (h "Fetch" h1).2
  simp [onNetworkEvent, NetworkMessage.paramsType, hfilter]

/-- Witness for claim C10: a response of resource type `Image` for
identifier `"7"`, while `demoStore` holds a matching pending request for
`"7"`: the event is ignored and the store keeps its entry. -/
theorem responseFiltered_witness :
    onNetworkEvent demoEnv 1 1 (NetworkMessage.responseReceived imageResponseParams)
      demoStore = Except.ok (demoStore, none) :=
  responseFiltered_before_correlation demoEnv 1 demoStore imageResponseParams
    (fun s hs => by
      have h2 : some "Image" = some s := hs
      have h3 : s = "Image" := (Option.some.inj h2).symm
      subst h3
      exact ⟨by decide, by decide⟩)

/-- Claim C1 counterexample: the collector answers the dispatch POST for
record `"7"` with status 500 — a failed dispatch — yet the completion
callback removes the pending entry anyway, because the source removes it
without consulting the success flag. The claim says a failed dispatch
leaves the entry in the store. -/
theorem dispatchFailure_entry_removed_counterexample :
    transportAccepted failEnv.transportStatus = false ∧
    onResponseReceived failEnv demoStore demoResponseParams =
      Except.ok ([], demoRecord, false) ∧
    Store.get ([] : Store) "7" = none :=
  ⟨rfl, rfl, rfl⟩

/-- Claim C1 (amended): whenever `onResponseReceived` completes a dispatch
— whatever HTTP status the transport returns, accepted or not — the
pending entry for the identifier is removed: the removal sits in the
dispatch completion callback and never tests the success flag. -/
theorem responseReceived_removes_unconditionally (env : Env) (store : Store)
    (respP : ResponseParams) (out : Store × NetworkEventRecord × Bool)
    (h : onResponseReceived env store respP = Except.ok out) :
    Store.get out.1 respP.requestId = none := by
  have h2 : onResponseReceived env store respP =
      match createEvent (env.getResponseBody respP.requestId)
          (Store.get store respP.requestId) respP with
      | Except.error e => Except.error e
      | Except.ok event =>
        Except.ok (Store.remove store respP.requestId, event,
          collectNetworkEvent event env.transportStatus) := rfl
  rw [h2] at h
  cases hc : createEvent (env.getResponseBody respP.requestId)
      (Store.get store respP.requestId) respP with
  | error e => rw [hc] at h; exact absurd h (by simp)
  | ok event =>
    rw [hc] at h
    simp only [Except.ok.injEq] at h
    rw [← h]
    exact Store.get_remove store respP.requestId

/-- Witness for the amended claim C1: the rejecting collector (`failEnv`,
status 500) still leads to the entry `"7"` being removed. -/
theorem responseReceived_removes_witness :
    onResponseReceived failEnv demoStore demoResponseParams =
      Except.ok ([], demoRecord, false) ∧
    Store.get ([] : Store) "7" = none :=
  ⟨rfl, responseReceived_removes_unconditionally failEnv demoStore demoResponseParams
    ([], demoRecord, false) rfl⟩

/-- `createEvent` on present request params succeeds with `builtRecord`. -/
theorem createEvent_ok (rb : Option ResponseBody) (rp : RequestParams)
    (respP : ResponseParams) :
    createEvent rb (some rp) respP = Except.ok (builtRecord rb rp respP) := rfl

/-- Claim C3: for an identifier whose resource type passes the filter, a
single request-sent event followed by a single response-received event
produces exactly one record — none on the request step, one on the
response step — whose identifier, url and method are those of the request
event and whose status is that of the response event. -/
theorem request_then_response_one_record (env : Env) (tabId : Int)
    (reqP : RequestParams) (respP : ResponseParams)
    (hid : respP.requestId = reqP.requestId)
    (hreq : importantResourceType reqP.type = true)
    (hresp : importantResourceType respP.type = true) :
    ∃ store1 rec flag,
      onNetworkEvent env tabId tabId (NetworkMessage.requestWillBeSent reqP) [] =
        Except.ok (store1, none) ∧
      onNetworkEvent env tabId tabId (NetworkMessage.responseReceived respP) store1 =
        Except.ok (Store.remove store1 respP.requestId, some (rec, flag)) ∧
      rec.requestId = reqP.requestId ∧ rec.url = reqP.request.url ∧
      rec.method = reqP.request.method ∧ rec.status = respP.response.status := by
  obtain ⟨p, hset, hpid, hts, hty, hurl, hmeth⟩ := onRequestWillBeSent_set env [] reqP
  have hget : Store.get (onRequestWillBeSent env [] reqP) respP.requestId = some p := by
    rw [hset, hid]
    exact Store.get_set [] reqP.requestId p
  refine ⟨onRequestWillBeSent env [] reqP,
    builtRecord (env.getResponseBody respP.requestId) p respP,
    false, ?_, ?_, hpid, hurl, hmeth, rfl⟩
  · simp [onNetworkEvent, NetworkMessage.paramsType, hreq]
  · simp [onNetworkEvent, NetworkMessage.paramsType, hresp, onResponseReceived, hget,
      createEvent_ok, collectNetworkEvent_eq_false]

/-- Witness for claim C3: the spec scenario — request `"7"` of type
`Fetch` to `https://x/api` with method `GET`, then its response with
status 200, in `demoEnv`. -/
theorem request_then_response_witness :
    demoResponseParams.requestId = demoRequestParams.requestId ∧
    importantResourceType demoRequestParams.type = true ∧
    importantResourceType demoResponseParams.type = true ∧
    (∃ store1 rec flag,
      onNetworkEvent demoEnv 1 1 (NetworkMessage.requestWillBeSent demoRequestParams) [] =
        Except.ok (store1, none) ∧
      onNetworkEvent demoEnv 1 1 (NetworkMessage.responseReceived demoResponseParams) store1 =
        Except.ok (Store.remove store1 demoResponseParams.requestId, some (rec, flag)) ∧
      rec.requestId = demoRequestParams.requestId ∧
      rec.url = demoRequestParams.request.url ∧
      rec.method = demoRequestParams.request.method ∧
      rec.status = demoResponseParams.response.status) :=
  ⟨rfl, by decide, by decide,
    request_then_response_one_record demoEnv 1 demoRequestParams demoResponseParams rfl
      (by decide) (by decide)⟩

/-- Claim C4: a request whose data marks a post body as present but
omitted (`hasPostData` set, `postData` absent) triggers the follow-up
fetch, the stored entry carries the fetched text, and any record later
built from that entry has `requestBody` equal to the fetched text; a
request not marked present-but-omitted is stored unchanged. -/
theorem postData_followup (env : Env) (store : Store) (params : RequestParams) (s : String)
    (h1 : params.request.hasPostData = true)
    (h2 : params.request.postData.falsy = true)
    (h3 : env.getRequestPostData params.requestId = JSValue.str s) :
    (∃ stored,
      Store.get (onRequestWillBeSent env store params) params.requestId = some stored ∧
      stored.request.postData = JSValue.str s ∧
      ∀ (rb : Option ResponseBody) (respP : ResponseParams) (rec : NetworkEventRecord),
        createEvent rb (some stored) respP = Except.ok rec → rec.requestBody = s) ∧
    (∀ (q : RequestParams) (st : Store),
      (q.request.hasPostData && q.request.postData.falsy) = false →
      onRequestWillBeSent env st q = Store.set st q.requestId q) := by
  constructor
  · refine ⟨{ params with request := { params.request with postData := JSValue.str s } },
      ?_, rfl, ?_⟩
    · have hb : (params.request.hasPostData && params.request.postData.falsy) = true := by
        rw [h1, h2]; rfl
      simp [onRequestWillBeSent, hb, h3, Store.get_set]
    · intro rb respP rec hre
      rw [createEvent_ok] at hre
      have h5 := Except.ok.inj hre
      rw [← h5]
      exact tryToStringify_str s
  · intro q st hq
    simp [onRequestWillBeSent, hq]

/-- Witness for claim C4: request `"12"` marked `hasPostData` with absent
`postData`; the follow-up fetch returns `"grant=code"`, which becomes the
stored post data and the `requestBody` of any record built from it. -/
theorem postData_followup_witness :
    postRequestParams.request.hasPostData = true ∧
    (postRequestParams.request.postData).falsy = true ∧
    demoEnv.getRequestPostData "12" = JSValue.str "grant=code" ∧
    ((∃ stored,
      Store.get (onRequestWillBeSent demoEnv [] postRequestParams) "12" = some stored ∧
      stored.request.postData = JSValue.str "grant=code" ∧
      ∀ (rb : Option ResponseBody) (respP : ResponseParams) (rec : NetworkEventRecord),
        createEvent rb (some stored) respP = Except.ok rec → rec.requestBody = "grant=code") ∧
    (∀ (q : RequestParams) (st : Store),
      (q.request.hasPostData && q.request.postData.falsy) = false →
      onRequestWillBeSent demoEnv st q = Store.set st q.requestId q)) :=
  ⟨rfl, rfl, rfl,
    postData_followup demoEnv [] postRequestParams "grant=code" rfl rfl rfl⟩
